import Mathlib

/-!
Verification of the generic reduction dispatch layer of the keops repository
(`pykeops/common/cudaconv.py` and `pykeops/torch/generic_red.py`), as a
shallow embedding in Lean 4.

Buffers (numpy arrays / torch tensors) are modelled by their shape and their
memory space; compiled routines by the pair (dll name, exported symbol) that
the loader binds with `ctypes`; the process-wide routine cache
`__cuda_convs_generic` by an association list threaded through the calls.
-/

/-- A host array / tensor, reduced to the data the dispatch layer inspects:
its shape (`arg.shape`) and whether it lives on the device (`x.is_cuda`). -/
structure Buffer where
  shape : List Nat
  isCuda : Bool
deriving DecidableEq, Repr

/-- `arg.shape[0]` -/
def Buffer.rows (b : Buffer) : Nat := b.shape.headD 0

/-- `arg.shape[1]` -/
def Buffer.cols (b : Buffer) : Nat := (b.shape.drop 1).headD 0

/-- `ndims(arg)` -/
def Buffer.ndims (b : Buffer) : Nat := b.shape.length

/-- One signature entry `[dimension, category]` (category 0 = row-indexed,
1 = column-indexed, 2 = parameter). -/
structure Sig where
  dim : Nat
  cat : Nat
deriving DecidableEq, Repr

/-- The errors raised by `cuda_conv_generic` / `get_cuda_conv_generic`.
Each constructor corresponds to one `raise` site in the source (all are
`ValueError` there, distinguished by message), or to an unhandled
`KeyError` / `IndexError` from a dict / list subscript. -/
inductive KError where
  | notTwoD
  | cat0RowMismatch
  | cat0DimMismatch
  | cat1RowMismatch
  | cat1DimMismatch
  | cat2DimMismatch
  | emptyX
  | emptyY
  | resultParamCat
  | resultNotTwoD
  | resultWidth
  | resultSigNotI
  | resultRowsX
  | resultSigNotJ
  | resultRowsY
  | mixedMemory
  | invalidBackend
  | cudaUnavailable
  | keyError
  | indexError
deriving DecidableEq, Repr

/-- The message attached to each `raise ValueError(...)` site in
`cudaconv.py` (empty for the unhandled subscript failures, which carry no
message of their own). -/
def errMsg : KError → String
  | .notTwoD => "Generic CUDA routines require 2D-arrays as variables."
  | .cat0RowMismatch => "CAT=0 variables (X_i) lengths are not compatible with each other."
  | .cat0DimMismatch => "The size of a CAT=0 variable does not match the signature."
  | .cat1RowMismatch => "CAT=1 variables (Y_j) lengths are not compatible with each other."
  | .cat1DimMismatch => "The size of a CAT=1 variable does not match the signature."
  | .cat2DimMismatch => "The size of a CAT=2 variable does not match the signature."
  | .emptyX => "There should be at least one (nonempty...) 'X_i' variable as input."
  | .emptyY => "There should be at least one (nonempty...) 'Y_j' variable as input."
  | .resultParamCat => "Derivatives wrt. parameters have not been implemented yet."
  | .resultNotTwoD => "The result array should be bi-dimensional."
  | .resultWidth => "The width of the result array does not match the signature."
  | .resultSigNotI => "The result's signature does not indicate an indexation by 'i'..."
  | .resultRowsX => "The result array does not have the correct number of lines wrt. the 'X_i' inputs given."
  | .resultSigNotJ => "The result's signature does not indicate an indexation by 'j'..."
  | .resultRowsY => "The result array does not have the correct number of lines wrt. the 'Y_j' inputs given."
  | .mixedMemory => "At least two input variables have different memory locations (Cpu/Gpu)."
  | .invalidBackend => "Invalid backend specified. Should be one of \"auto\", \"GPU\", \"GPU_1D\", \"GPU_2D\""
  | .cudaUnavailable => "Cuda routines are not available."
  | .keyError => ""
  | .indexError => ""

/-- State of the signature-checking loop of `cuda_conv_generic`
(lines 237-263): the inferred `nx` and `ny` (`none` models the initial
`-1`), and the accumulated `variables` list. -/
abbrev ArgState := Option Nat × Option Nat × List Buffer

/-- One iteration of the loop `for (arg, sig) in zip(args, signature[1:])`
of `cuda_conv_generic`. -/
def processArg (st : ArgState) (p : Buffer × Sig) : Except KError ArgState :=
  let (nxO, nyO, vars) := st
  let (arg, sig) := p
  if sig.cat = 0 then
    if arg.ndims ≠ 2 then .error .notTwoD
    else
      let nx := nxO.getD arg.rows
      if nx ≠ arg.rows then .error .cat0RowMismatch
      else if sig.dim ≠ arg.cols then .error .cat0DimMismatch
      else .ok (some nx, nyO, vars ++ [arg])
  else if sig.cat = 1 then
    if arg.ndims ≠ 2 then .error .notTwoD
    else
      let ny := nyO.getD arg.rows
      if ny ≠ arg.rows then .error .cat1RowMismatch
      else if sig.dim ≠ arg.cols then .error .cat1DimMismatch
      else .ok (nxO, some ny, vars ++ [arg])
  else if sig.cat = 2 then
    if sig.dim ≠ arg.rows then .error .cat2DimMismatch
    else .ok (nxO, nyO, vars ++ [arg])
  else .ok (nxO, nyO, vars)

/-- The full signature-checking loop of `cuda_conv_generic`. -/
def processArgs (l : List (Buffer × Sig)) (st : ArgState) : Except KError ArgState :=
  match l with
  | [] => .ok st
  | p :: rest =>
    match processArg st p with
    | .error e => .error e
    | .ok st2 => processArgs rest st2

/-- The Python value of `nx` / `ny`: `-1` until the first buffer of the
relevant category is seen, the inferred row count afterwards. -/
def natOf : Option Nat → Int
  | none => -1
  | some n => (n : Int)

/-- Lines 265-267: `if not nx > 0: raise ...` and symmetrically for `ny`. -/
def checkNonEmpty (nxO nyO : Option Nat) : Except KError (Nat × Nat) :=
  if ¬ (0 < natOf nxO) then .error .emptyX
  else if ¬ (0 < natOf nyO) then .error .emptyY
  else .ok (nxO.getD 0, nyO.getD 0)

/-- Lines 269-283: validation of the result buffer against `signature[0]`. -/
def checkResult (sig0 : Sig) (result : Buffer) (sumIndex nx ny : Nat) :
    Except KError Unit :=
  if sig0.cat = 2 then .error .resultParamCat
  else if result.ndims ≠ 2 then .error .resultNotTwoD
  else if sig0.dim ≠ result.cols then .error .resultWidth
  else if sumIndex = 0 then
    if sig0.cat ≠ 0 then .error .resultSigNotI
    else if nx ≠ result.rows then .error .resultRowsX
    else .ok ()
  else if sumIndex = 1 then
    if sig0.cat ≠ 1 then .error .resultSigNotJ
    else if ny ≠ result.rows then .error .resultRowsY
    else .ok ()
  else .ok ()

/-- Lines 301-308: determine the common memory space of
`(result,) + tuple(variables)`; a mixed set raises. -/
def detectMemType (result : Buffer) (vs : List Buffer) :
    Except KError String :=
  let flags := (result :: vs).map Buffer.isCuda
  if flags.all id then .ok "device"
  else if flags.any id then .error .mixedMemory
  else .ok "host"

/-- Lines 310-326: resolve the user backend hint against the detected
memory space. -/
def resolveBackend (backend memType : String) : Except KError String :=
  if backend = "auto" then
    .ok (if memType = "host" then "CPU" else "GPU_1D_device")
  else if backend = "GPU" then
    .ok (if memType = "host" then "GPU_1D_host" else "GPU_1D_device")
  else if backend = "GPU_1D" ∨ backend = "GPU_2D" then
    .ok (backend ++ "_" ++ memType)
  else .error .invalidBackend

/-- A bound `ctypes` entry point, identified by the shared library it was
loaded from and the exported symbol name. -/
structure Routine where
  dll : String
  symbol : String
deriving DecidableEq, Repr

/-- The per-formula dictionary `__cuda_convs_generic[dll_name]`:
backend name → `[routine_i, routine_j]`. -/
abbrev BackendTable := List (String × (Routine × Routine))

/-- The process-wide cache `__cuda_convs_generic`. -/
abbrev Cache := List (String × BackendTable)

/-- The filesystem and toolchain facts the loader depends on: whether the
shared object named by a given hash is already on disk in the build folder,
and whether it was compiled with the Cuda entry points. -/
structure Env where
  onDisk : String → Bool
  hasCuda : String → Bool

/-- Observable side effects of one loader call: whether a binary was
loaded with `ctypes.CDLL`, and whether `compile_generic_routine` ran. -/
structure Effects where
  loaded : Bool
  compiled : Bool
deriving DecidableEq, Repr

def noEffects : Effects := ⟨false, false⟩

/-- `s.replace(" ", "")`: with a single-character pattern and an empty
replacement this is exactly the removal of every space character. -/
def stripSpaces (s : String) : String := ⟨s.data.filter (· ≠ ' ')⟩

/-- The string `",".join(aliases + [formula]) + "_" + cuda_type` built from
the space-stripped aliases and formula (lines 46-51).  The source then
feeds it to `sha256(...).hexdigest()`; since the hash is a deterministic
function of this string, the model keys the cache by the pre-image itself. -/
def dllNameOf (aliases : List String) (formula cudaType : String) : String :=
  String.intercalate "," ((aliases.map stripSpaces) ++ [stripSpaces formula])
    ++ "_" ++ cudaType

/-- Association-list lookup, modelling Python dict subscript on the
string-keyed caches. -/
def lookupA {β : Type} : List (String × β) → String → Option β
  | [], _ => none
  | (k, v) :: rest, key => if k = key then some v else lookupA rest key

/-- `table[backend][sum_index]`: dict subscript (KeyError when the backend
key is absent) followed by list subscript into `[routine_i, routine_j]`. -/
def lookupTable (t : BackendTable) (backend : String) (sumIndex : Nat) :
    Except KError Routine :=
  match lookupA t backend with
  | none => .error .keyError
  | some (ri, rj) =>
    match [ri, rj].get? sumIndex with
    | none => .error .indexError
    | some r => .ok r

/-- The dictionary built for a freshly loaded dll (lines 69-103): the CPU
entry points always, the eight Gpu entry points only when the binary
exports them. -/
def routinesTable (dllName : String) (hasCuda : Bool) : BackendTable :=
  ("CPU", (⟨dllName, "CpuConv"⟩, ⟨dllName, "CpuTransConv"⟩)) ::
  (if hasCuda then
    [("GPU_1D_host", (⟨dllName, "GpuConv1D"⟩, ⟨dllName, "GpuTransConv1D"⟩)),
     ("GPU_2D_host", (⟨dllName, "GpuConv2D"⟩, ⟨dllName, "GpuTransConv2D"⟩)),
     ("GPU_1D_device",
       (⟨dllName, "GpuConv1D_FromDevice"⟩, ⟨dllName, "GpuTransConv1D_FromDevice"⟩)),
     ("GPU_2D_device",
       (⟨dllName, "GpuConv2D_FromDevice"⟩, ⟨dllName, "GpuTransConv2D_FromDevice"⟩))]
   else [])

/-- `get_cuda_conv_generic` (lines 30-109).  On a cache hit the stored
handles are returned with no I/O; on a miss the dll is loaded (compiling
it first when absent from disk), the new table is installed in the cache —
note that in the source the installation happens *before* the
`AttributeError` handler may raise `ValueError('Cuda routines are not
available.')`, so the host-only table stays cached even when that error is
raised — and the requested entry is returned. -/
def getCudaConvGeneric (aliases : List String) (formula cudaType : String)
    (sumIndex : Nat) (backend : String) (env : Env) (cache : Cache) :
    Except KError Routine × Cache × Effects :=
  let dllName := dllNameOf aliases formula cudaType
  match lookupA cache dllName with
  | some table => (lookupTable table backend sumIndex, cache, noEffects)
  | none =>
    let table := routinesTable dllName (env.hasCuda dllName)
    let cache2 := (dllName, table) :: cache
    let eff : Effects := ⟨true, !env.onDisk dllName⟩
    if env.hasCuda dllName = false ∧ backend ≠ "CPU" then
      (.error .cudaUnavailable, cache2, eff)
    else
      (lookupTable table backend sumIndex, cache2, eff)

/-- The routine call `routine(nx, ny, result_p, vars_p)` at line 332,
recorded symbolically. -/
structure Invocation where
  routine : Routine
  nx : Nat
  ny : Nat
  output : Buffer
  inputs : List Buffer
deriving DecidableEq, Repr

/-- `cuda_conv_generic` (lines 113-332), on the torch-tensor path: shape
checking, the non-emptiness check, result validation, memory-space
detection, backend resolution, and finally the loader call followed by the
routine invocation.  The cache is threaded: stages that raise before the
loader leave it untouched and perform no load or compilation. -/
def cudaConvGeneric (formula : String) (signature : List Sig)
    (result : Buffer) (args : List Buffer) (backend : String)
    (aliases : List String) (sumIndex : Nat) (cudaType : String)
    (env : Env) (cache : Cache) :
    Except KError Invocation × Cache × Effects :=
  match processArgs (args.zip signature.tail) (none, none, []) with
  | .error e => (.error e, cache, noEffects)
  | .ok (nxO, nyO, vs) =>
    match checkNonEmpty nxO nyO with
    | .error e => (.error e, cache, noEffects)
    | .ok (nx, ny) =>
      match signature.head? with
      | none => (.error .indexError, cache, noEffects)
      | some sig0 =>
        match checkResult sig0 result sumIndex nx ny with
        | .error e => (.error e, cache, noEffects)
        | .ok _ =>
          match detectMemType result vs with
          | .error e => (.error e, cache, noEffects)
          | .ok memType =>
            match resolveBackend backend memType with
            | .error e => (.error e, cache, noEffects)
            | .ok backend2 =>
              match getCudaConvGeneric aliases formula cudaType sumIndex backend2 env cache with
              | (.error e, c2, eff) => (.error e, c2, eff)
              | (.ok r, c2, eff) => (.ok ⟨r, nx, ny, result, vs⟩, c2, eff)

/-!
Embedding of `pykeops/torch/generic_red.py` (the autograd node
`pytorch_genred`).  Buffers are tracked at the level of shapes and
identities; the inner reduction calls (`genred`, and the recursive
`pytorch_genred().apply` of the backward pass) are tracked by the shape of
the buffer they produce and counted.
-/

/-- Modelled from the spec: the output shape of the generic reduction
(`genred` from `pykeops.common.generic_reduction`, whose source is not in
the repository snapshot).  Per the spec's Shape/Backend Resolver contract,
the output is 2D with row count `nx` when the reduction is row-indexed
(`sum_index = 0`) and `ny` otherwise, and column count equal to the output
slot's declared dimension (`signature[0][0]`). -/
def reductionShape (sigG : List Sig) (sumIndex nx ny : Nat) : List Nat :=
  [if sumIndex = 0 then nx else ny, (sigG.headD ⟨0, 0⟩).dim]

/-- The autograd context: `ctx.saved_tensors` plus the five retained
attributes set in `forward` (lines 36-41). -/
structure Ctx where
  savedArgs : List Buffer
  backend : String
  aliases : List String
  formula : String
  signature : List Sig
  sumIndex : Nat
deriving DecidableEq, Repr

inductive PyErr where
  | nameError
  | indexError
  | typeError
deriving DecidableEq, Repr

/-- What `pytorch_genred.forward` produces on success: the retained
context, the shape of the returned output buffer, and the number of
reduction calls executed. -/
structure ForwardOut where
  ctx : Ctx
  resultShape : List Nat
  reductions : Nat
deriving DecidableEq, Repr

/-- `pytorch_genred.forward` (lines 31-48).  The context attributes are
set, then the branch on `args[0].is_cuda` is taken.  The device branch of
the source reads `genred_fromdevice(formula, aliases, *vars_p, ...)` where
`vars_p` is never assigned in that branch (and `result` is never assigned
either), so it raises `NameError` before completing any reduction; the
host branch converts the tensors to numpy views (no copy) and runs `genred`
once. -/
def pytorchGenredForward (formula : String) (aliases : List String)
    (signature : List Sig) (args : List Buffer) (sumIndex : Nat)
    (backend : String) (nx ny : Nat) : Except PyErr ForwardOut :=
  match args.head? with
  | none => .error .indexError
  | some a0 =>
    let ctx : Ctx := ⟨args, backend, aliases, formula, signature, sumIndex⟩
    if a0.isCuda then .error .nameError
    else .ok ⟨ctx, reductionShape signature sumIndex nx ny, 1⟩

/-- `"Var(" + str(ind) + "," + str(dim) + "," + str(cat) + ")"` — the
explicit variable references built at lines 67 and 78 of
`generic_red.py`. -/
def varRef (ind dim cat : Nat) : String :=
  "Var(" ++ toString ind ++ "," ++ toString dim ++ "," ++ toString cat ++ ")"

/-- The arguments prepared for one recursive reduction call of the
backward pass: `formula_g = "Grad(" + formula + "," + var + "," + eta +
")"` (line 79) and the `sumindex_g` / `signature_g` pair set at lines
85-87 (parameter case) or 100-101 (category 0/1 case). -/
structure GradCall where
  formulaG : String
  signatureG : List Sig
  sumIndexG : Nat
deriving DecidableEq, Repr

/-- Lines 67, 78-79, 85-87 and 100-101: the gradient call prepared for a
requested input slot of declared signature `sig` at variable index
`varInd`, where `nvars` is the number of entries of `signature[1:]`
(lines 60-62) and `eta` refers to the incoming output gradient appended
as one more variable. -/
def gradCallFor (formula : String) (signature : List Sig) (sig : Sig)
    (varInd nvars : Nat) : GradCall :=
  let sig0 := signature.headD ⟨0, 0⟩
  let eta := varRef nvars sig0.dim sig0.cat
  let var := varRef varInd sig.dim sig.cat
  let formulaG := "Grad(" ++ formula ++ "," ++ var ++ "," ++ eta ++ ")"
  if sig.cat = 2 then
    ⟨formulaG, ⟨sig.dim, 1⟩ :: (signature.tail ++ signature.take 1), 1⟩
  else
    ⟨formulaG, sig :: (signature.tail ++ signature.take 1), sig.cat⟩

/-- The recursive reduction dispatch
`genconv(backend, aliases, formula_g, signature_g, sumindex_g, *args_g)`
with `genconv = pytorch_genred().apply` (lines 83, 88 and 102).
`torch.autograd.Function.apply` forwards its arguments to `forward`
positionally, but `pytorch_genred.forward(ctx, formula, aliases,
signature, *args, sum_index, backend)` declares `sum_index` and `backend`
as required keyword-only parameters; they receive no value from this
call, so Python raises `TypeError` while binding the arguments, before
`forward`'s body runs: the call completes no reduction and produces no
gradient tensor. -/
def genconvApply (_backend : String) (_aliases : List String)
    (_call : GradCall) (_argsG : List Buffer) : Except PyErr Buffer :=
  .error .typeError

/-- The loop of `pytorch_genred.backward` over `signature[1:]` (lines
72-106), with `arg_ind` starting at 5 and `var_ind` at 0.  A slot whose
`needs_input_grad` entry is false gets a `None` marker with no reduction
attempted; a requested slot prepares its gradient call and invokes
`genconv`, which raises `TypeError` (see `genconvApply`) and aborts the
loop — the all-ones contraction and `view(-1)` of lines 94-95 sit after
that call and are unreachable.  On the only completable path the
returned pair carries the slot list and the number of completed inner
reductions. -/
def backwardGo (backend : String) (aliases : List String) (formula : String)
    (signature : List Sig) (needs : List Bool) (argsG : List Buffer)
    (nvars : Nat) :
    List Sig → Nat → Nat → Except PyErr (List (Option Buffer) × Nat)
  | [], _, _ => .ok ([], 0)
  | sig :: rest, argInd, varInd =>
    if needs.getD argInd false then
      match genconvApply backend aliases
          (gradCallFor formula signature sig varInd nvars) argsG with
      | .error e => .error e
      | .ok g =>
        match backwardGo backend aliases formula signature needs argsG nvars
            rest (argInd + 1) (varInd + 1) with
        | .error e => .error e
        | .ok (gs, c) => .ok (some g :: gs, c + 1)
    else
      match backwardGo backend aliases formula signature needs argsG nvars
          rest (argInd + 1) (varInd + 1) with
      | .error e => .error e
      | .ok (gs, c) => .ok (none :: gs, c)

/-- `pytorch_genred.backward` (lines 51-109): computes `nvars` (lines
60-62), appends the incoming output gradient to the saved tensors
(`args_g = args + (G,)`, line 80), runs the loop, and — when the loop
completes — returns the tuple of five `None` markers followed by one slot
per entry of `signature[1:]` (line 109).  When any slot is requested the
loop raises `TypeError` instead and no tuple is returned. -/
def pytorchGenredBackward (ctx : Ctx) (G : Buffer) (needs : List Bool) :
    Except PyErr (List (Option Buffer) × Nat) :=
  let nvars := ctx.signature.tail.length
  let argsG := ctx.savedArgs ++ [G]
  match backwardGo ctx.backend ctx.aliases ctx.formula ctx.signature needs
      argsG nvars ctx.signature.tail 5 0 with
  | .error e => .error e
  | .ok (gs, c) => .ok (List.replicate 5 none ++ gs, c)

/-! ### Helper lemmas -/

lemma lookupA_cons_self {β : Type} (k : String) (v : β) (rest : List (String × β)) :
    lookupA ((k, v) :: rest) k = some v := by
  simp [lookupA]

/-- A loader call that hits the in-process cache returns the stored handle
with no load and no compilation, leaving the cache unchanged. -/
lemma loader_hit (aliases : List String) (formula cudaType : String)
    (sumIndex : Nat) (backend : String) (env : Env) (cache : Cache)
    (table : BackendTable)
    (h : lookupA cache (dllNameOf aliases formula cudaType) = some table) :
    getCudaConvGeneric aliases formula cudaType sumIndex backend env cache =
      (lookupTable table backend sumIndex, cache, noEffects) := by
  simp only [getCudaConvGeneric, h]

/-- A successful step on a category-0 entry records that entry's row count
as the inferred `nx`. -/
lemma processArg_cat0_ok (nxO nyO : Option Nat) (vars : List Buffer)
    (arg : Buffer) (sig : Sig) (st2 : ArgState)
    (hcat : sig.cat = 0)
    (h : processArg (nxO, nyO, vars) (arg, sig) = .ok st2) :
    st2.1 = some arg.rows := by
  simp only [processArg] at h
  rw [if_pos hcat] at h
  split_ifs at h with h1 h2 h3
  rw [Except.ok.injEq] at h
  subst h
  rw [not_not] at h2
  exact congrArg some h2

/-- A successful category-0 step against an already-inferred `nx` forces
the entry's row count to agree with it. -/
lemma processArg_cat0_rows_eq (v : Nat) (nyO : Option Nat)
    (vars : List Buffer) (arg : Buffer) (sig : Sig) (st2 : ArgState)
    (hcat : sig.cat = 0)
    (h : processArg (some v, nyO, vars) (arg, sig) = .ok st2) :
    arg.rows = v := by
  simp only [processArg] at h
  rw [if_pos hcat] at h
  split_ifs at h with h1 h2 h3
  rw [not_not] at h2
  simpa using h2.symm

/-- A step on an entry that is not category 0 leaves the inferred `nx`
unchanged. -/
lemma processArg_nonCat0_ok (nxO nyO : Option Nat) (vars : List Buffer)
    (arg : Buffer) (sig : Sig) (st2 : ArgState)
    (hcat : sig.cat ≠ 0)
    (h : processArg (nxO, nyO, vars) (arg, sig) = .ok st2) :
    st2.1 = nxO := by
  simp only [processArg] at h
  rw [if_neg hcat] at h
  by_cases h1 : sig.cat = 1
  · rw [if_pos h1] at h
    split_ifs at h with h2 h3 h4
    rw [Except.ok.injEq] at h; subst h; rfl
  · rw [if_neg h1] at h
    by_cases h2 : sig.cat = 2
    · rw [if_pos h2] at h
      split_ifs at h with h3
      rw [Except.ok.injEq] at h; subst h; rfl
    · rw [if_neg h2] at h
      rw [Except.ok.injEq] at h; subst h; rfl

/-- Once the inferred `nx` is set, the rest of the loop preserves it. -/
lemma processArgs_nx_some (l : List (Buffer × Sig)) :
    ∀ (st out : ArgState) (v : Nat), processArgs l st = .ok out →
      st.1 = some v → out.1 = some v := by
  induction l with
  | nil =>
    intro st out v h hv
    simp only [processArgs, Except.ok.injEq] at h
    subst h; exact hv
  | cons p rest ih =>
    intro st out v h hv
    obtain ⟨nxO, nyO, vars⟩ := st
    obtain ⟨arg, sig⟩ := p
    simp only at hv
    subst hv
    simp only [processArgs] at h
    cases hstep : processArg (some v, nyO, vars) (arg, sig) with
    | error e => rw [hstep] at h; simp at h
    | ok st2 =>
      rw [hstep] at h
      by_cases hcat : sig.cat = 0
      · have h2 := processArg_cat0_ok (some v) nyO vars arg sig st2 hcat hstep
        have h3 := processArg_cat0_rows_eq v nyO vars arg sig st2 hcat hstep
        exact ih st2 out v h (by rw [h2, h3])
      · have h2 := processArg_nonCat0_ok (some v) nyO vars arg sig st2 hcat hstep
        exact ih st2 out v h h2

/-- If the loop succeeds with inferred `nx = r`, then every category-0
entry it consumed has row count `r`. -/
lemma processArgs_cat0_rows (l : List (Buffer × Sig)) :
    ∀ (st : ArgState) (r : Nat) (b : Option Nat) (c : List Buffer),
      processArgs l st = .ok (some r, b, c) →
      ∀ p ∈ l, p.2.cat = 0 → p.1.rows = r := by
  induction l with
  | nil => intro st r b c h p hp; simp at hp
  | cons q rest ih =>
    intro st r b c h p hp hcat
    obtain ⟨nxO, nyO, vars⟩ := st
    obtain ⟨arg, sig⟩ := q
    simp only [processArgs] at h
    cases hstep : processArg (nxO, nyO, vars) (arg, sig) with
    | error e => rw [hstep] at h; simp at h
    | ok st2 =>
      rw [hstep] at h
      rcases List.mem_cons.mp hp with hhead | htail
      · subst hhead
        have h2 := processArg_cat0_ok nxO nyO vars arg sig st2 hcat hstep
        have h3 := processArgs_nx_some rest st2 (some r, b, c) arg.rows h h2
        simp only at h3
        exact (Option.some.injEq .. ▸ h3).symm
      · exact ih st2 r b c h p htail hcat

/-- If the loop succeeds with inferred `nx = r`, then either `nx` was
already `r` on entry or some consumed category-0 entry has row count `r`. -/
lemma processArgs_cat0_exists (l : List (Buffer × Sig)) :
    ∀ (st : ArgState) (r : Nat) (b : Option Nat) (c : List Buffer),
      processArgs l st = .ok (some r, b, c) →
      st.1 = some r ∨ ∃ p ∈ l, p.2.cat = 0 ∧ p.1.rows = r := by
  induction l with
  | nil =>
    intro st r b c h
    simp only [processArgs, Except.ok.injEq] at h
    subst h; exact Or.inl rfl
  | cons q rest ih =>
    intro st r b c h
    obtain ⟨nxO, nyO, vars⟩ := st
    obtain ⟨arg, sig⟩ := q
    simp only [processArgs] at h
    cases hstep : processArg (nxO, nyO, vars) (arg, sig) with
    | error e => rw [hstep] at h; simp at h
    | ok st2 =>
      rw [hstep] at h
      by_cases hcat : sig.cat = 0
      · have h2 := processArg_cat0_ok nxO nyO vars arg sig st2 hcat hstep
        have h3 := processArgs_nx_some rest st2 (some r, b, c) arg.rows h h2
        simp only at h3
        refine Or.inr ⟨(arg, sig), List.mem_cons_self .., hcat, ?_⟩
        exact (Option.some.injEq .. ▸ h3).symm
      · have h2 := processArg_nonCat0_ok nxO nyO vars arg sig st2 hcat hstep
        rcases ih st2 r b c h with hl | ⟨p, hp, hc, hr⟩
        · exact Or.inl (h2 ▸ hl)
        · exact Or.inr ⟨p, List.mem_cons_of_mem _ hp, hc, hr⟩

/-- After any successful loader call, an identical call against the
resulting cache is a pure cache hit returning the same handle. -/
lemma loader_second_call (aliases : List String) (formula cudaType : String)
    (sumIndex : Nat) (backend : String) (env : Env) (cache c1 : Cache)
    (r : Routine) (e1 : Effects)
    (h : getCudaConvGeneric aliases formula cudaType sumIndex backend env cache
          = (.ok r, c1, e1)) :
    getCudaConvGeneric aliases formula cudaType sumIndex backend env c1
      = (.ok r, c1, noEffects) := by
  simp only [getCudaConvGeneric] at h ⊢
  cases hc : lookupA cache (dllNameOf aliases formula cudaType) with
  | some table =>
    simp only [hc, Prod.mk.injEq] at h
    obtain ⟨h1, h2, h3⟩ := h
    subst h2
    simp [hc, h1]
  | none =>
    simp only [hc] at h
    by_cases hcond : env.hasCuda (dllNameOf aliases formula cudaType) = false
        ∧ backend ≠ "CPU"
    · rw [if_pos hcond] at h
      simp only [Prod.mk.injEq] at h
      exact absurd h.1 (by simp)
    · rw [if_neg hcond] at h
      simp only [Prod.mk.injEq] at h
      obtain ⟨h1, h2, h3⟩ := h
      subst h2
      simp [lookupA, h1]

/-! ### Claim C1 — backend hint resolution -/

/-- C1 counterexample: the claim says an explicit fully-qualified backend
name such as "CPU" is selected outright; the code instead falls through to
the `else` branch and raises the "Invalid backend specified" error. -/
theorem c1_explicit_backend_counterexample :
    resolveBackend "CPU" "host" = Except.error KError.invalidBackend ∧
    Except.error KError.invalidBackend ≠
      (Except.ok "CPU" : Except KError String) :=
  ⟨rfl, by simp⟩

/-- C1 (amended): "auto" resolves to CPU for host data and GPU_1D_device
otherwise; "GPU" resolves to GPU_1D_host or GPU_1D_device by detected
memory space; "GPU_1D"/"GPU_2D" get the detected space suffix appended;
every other hint — including the five fully-qualified backend names, which
are not accepted — raises the ConfigurationError. -/
theorem c1_backend_resolution_amended (m b : String) :
    (b = "auto" →
      resolveBackend b m
        = .ok (if m = "host" then "CPU" else "GPU_1D_device")) ∧
    (b = "GPU" →
      resolveBackend b m
        = .ok (if m = "host" then "GPU_1D_host" else "GPU_1D_device")) ∧
    ((b = "GPU_1D" ∨ b = "GPU_2D") →
      resolveBackend b m = .ok (b ++ "_" ++ m)) ∧
    (b ≠ "auto" → b ≠ "GPU" → b ≠ "GPU_1D" → b ≠ "GPU_2D" →
      resolveBackend b m = .error .invalidBackend) := by
  refine ⟨?_, ?_, ?_, ?_⟩
  · intro hb; subst hb; simp [resolveBackend]
  · intro hb; subst hb; simp [resolveBackend]
  · intro hb; rcases hb with hb | hb <;> subst hb <;> simp [resolveBackend]
  · intro h1 h2 h3 h4; simp [resolveBackend, h1, h2, h3, h4]

theorem c1_backend_resolution_amended_witness :
    resolveBackend "auto" "host" = .ok "CPU" ∧
    resolveBackend "GPU_2D" "device" = .ok "GPU_2D_device" := by
  constructor
  · simpa using (c1_backend_resolution_amended "host" "auto").1 rfl
  · simpa using
      (c1_backend_resolution_amended "device" "GPU_2D").2.2.1 (Or.inr rfl)

/-! ### Claim C2 — the loader cache -/

/-- C2: after any successful loader call, a second call with identical
arguments returns the very same handle out of the same (unchanged) cache,
taking the in-process cache-hit path: no binary load, no compilation. -/
theorem c2_loader_second_call_cached (aliases : List String)
    (formula cudaType : String) (sumIndex : Nat) (backend : String)
    (env : Env) (cache c1 : Cache) (r : Routine) (e1 : Effects)
    (h : getCudaConvGeneric aliases formula cudaType sumIndex backend env cache
          = (.ok r, c1, e1)) :
    getCudaConvGeneric aliases formula cudaType sumIndex backend env c1
      = (.ok r, c1, noEffects) :=
  loader_second_call aliases formula cudaType sumIndex backend env cache c1 r e1 h

/-- An environment in which every binary is on disk and has Cuda support. -/
def envAll : Env := ⟨fun _ => true, fun _ => true⟩

theorem c2_loader_second_call_cached_witness :
    getCudaConvGeneric [] "f" "float" 0 "CPU" envAll
        [("f_float", routinesTable "f_float" true)]
      = (.ok ⟨"f_float", "CpuConv"⟩,
         [("f_float", routinesTable "f_float" true)], noEffects) :=
  c2_loader_second_call_cached [] "f" "float" 0 "CPU" envAll []
    [("f_float", routinesTable "f_float" true)] ⟨"f_float", "CpuConv"⟩
    ⟨true, false⟩ (by rfl)

/-! ### Claim C10 — whitespace-insensitive cache key -/

/-- C10: spaces are stripped from the formula and each alias before the
hash key is computed, so calls whose arguments differ only in spaces share
the cache key, make identical loader calls, and — after one of them has
populated the cache — the other returns the stored handle from the same
cached routine set with no load and no compilation. -/
theorem c10_cache_key_space_insensitive (aliases1 aliases2 : List String)
    (formula1 formula2 cudaType : String) (sumIndex : Nat) (backend : String)
    (env : Env) (cache c1 : Cache) (r : Routine) (e1 : Effects)
    (hf : stripSpaces formula1 = stripSpaces formula2)
    (ha : aliases1.map stripSpaces = aliases2.map stripSpaces) :
    dllNameOf aliases1 formula1 cudaType = dllNameOf aliases2 formula2 cudaType ∧
    getCudaConvGeneric aliases2 formula2 cudaType sumIndex backend env cache
      = getCudaConvGeneric aliases1 formula1 cudaType sumIndex backend env cache ∧
    (getCudaConvGeneric aliases1 formula1 cudaType sumIndex backend env cache
        = (.ok r, c1, e1) →
      getCudaConvGeneric aliases2 formula2 cudaType sumIndex backend env c1
        = (.ok r, c1, noEffects)) := by
  have hkey : dllNameOf aliases1 formula1 cudaType
      = dllNameOf aliases2 formula2 cudaType := by
    simp only [dllNameOf, hf, ha]
  refine ⟨hkey, by simp only [getCudaConvGeneric, ← hkey], ?_⟩
  intro h
  have h2 := loader_second_call aliases1 formula1 cudaType sumIndex backend
    env cache c1 r e1 h
  have h3 : getCudaConvGeneric aliases2 formula2 cudaType sumIndex backend env c1
      = getCudaConvGeneric aliases1 formula1 cudaType sumIndex backend env c1 := by
    simp only [getCudaConvGeneric, ← hkey]
  rw [h3, h2]

theorem c10_cache_key_space_insensitive_witness :
    dllNameOf ["a = b"] "x + y" "float" = dllNameOf ["a=b"] "x+y" "float" :=
  (c10_cache_key_space_insensitive ["a = b"] ["a=b"] "x + y" "x+y" "float" 0
    "CPU" envAll [] [] ⟨"", ""⟩ noEffects (by rfl) (by rfl)).1

/-! ### Claim C7 — host-only routine sets and device requests -/

/-- An environment whose binaries are all on disk but compiled without
device support. -/
def envNoCuda : Env := ⟨fun _ => true, fun _ => false⟩

/-- The cache produced by a first, successful CPU request against a
host-only binary (the host-only table is recorded). -/
def hostOnlyCache : Cache :=
  (getCudaConvGeneric [] "g" "float" 0 "CPU" envNoCuda []).2.1

/-- C7 counterexample: the claim says a device-backend request made after
the host-only set has been cached by an earlier CPU request fails with the
UnsupportedBackendError (the `ValueError("Cuda routines are not
available.")`); on the cache-hit path the code instead fails with a bare
`KeyError` from the dict subscript `[backend]`. -/
theorem c7_cached_device_request_counterexample :
    (getCudaConvGeneric [] "g" "float" 0 "GPU_1D_device" envNoCuda
        hostOnlyCache).1 = .error .keyError ∧
    KError.keyError ≠ KError.cudaUnavailable ∧
    errMsg .keyError ≠ errMsg .cudaUnavailable :=
  ⟨rfl, by decide, by decide⟩

/-- C7 (amended): when the loaded binary lacks device entry points the
cache records host-only availability.  A device-backend request on the
call that loads the binary fails with the dedicated UnsupportedBackendError
(`cudaUnavailable`), and the host-only table is still installed in the
cache; a device-backend request served from the already-cached host-only
set fails too, but with a generic `KeyError` lookup failure rather than
the dedicated error; CPU requests succeed unaffected in both directions. -/
theorem c7_host_only_cache_amended (aliases : List String)
    (formula cudaType : String) (sumIndex : Nat) (backend : String)
    (env : Env) (cache : Cache)
    (hnc : env.hasCuda (dllNameOf aliases formula cudaType) = false) :
    (lookupA cache (dllNameOf aliases formula cudaType) = none →
      backend ≠ "CPU" →
      getCudaConvGeneric aliases formula cudaType sumIndex backend env cache
        = (.error .cudaUnavailable,
           (dllNameOf aliases formula cudaType,
             routinesTable (dllNameOf aliases formula cudaType) false) :: cache,
           ⟨true, !env.onDisk (dllNameOf aliases formula cudaType)⟩)) ∧
    (lookupA cache (dllNameOf aliases formula cudaType)
        = some (routinesTable (dllNameOf aliases formula cudaType) false) →
      backend ≠ "CPU" →
      getCudaConvGeneric aliases formula cudaType sumIndex backend env cache
        = (.error .keyError, cache, noEffects)) ∧
    (lookupA cache (dllNameOf aliases formula cudaType)
        = some (routinesTable (dllNameOf aliases formula cudaType) false) →
      getCudaConvGeneric aliases formula cudaType 0 "CPU" env cache
        = (.ok ⟨dllNameOf aliases formula cudaType, "CpuConv"⟩, cache,
           noEffects) ∧
      getCudaConvGeneric aliases formula cudaType 1 "CPU" env cache
        = (.ok ⟨dllNameOf aliases formula cudaType, "CpuTransConv"⟩, cache,
           noEffects)) := by
  refine ⟨?_, ?_, ?_⟩
  · intro hmiss hb
    simp only [getCudaConvGeneric, hmiss]
    rw [if_pos ⟨hnc, hb⟩]
    simp only [hnc]
  · intro hhit hb
    rw [loader_hit aliases formula cudaType sumIndex backend env cache _ hhit]
    have hne : ¬ ("CPU" = backend) := fun hh => hb hh.symm
    simp [lookupTable, routinesTable, lookupA, hne]
  · intro hhit
    constructor
    · rw [loader_hit aliases formula cudaType 0 "CPU" env cache _ hhit]
      simp [lookupTable, routinesTable, lookupA]
    · rw [loader_hit aliases formula cudaType 1 "CPU" env cache _ hhit]
      simp [lookupTable, routinesTable, lookupA]

theorem c7_host_only_cache_amended_witness :
    getCudaConvGeneric [] "g" "float" 0 "GPU_1D_device" envNoCuda
        [("g_float", routinesTable "g_float" false)]
      = (.error .keyError, [("g_float", routinesTable "g_float" false)],
         noEffects) ∧
    getCudaConvGeneric [] "g" "float" 0 "CPU" envNoCuda
        [("g_float", routinesTable "g_float" false)]
      = (.ok ⟨"g_float", "CpuConv"⟩,
         [("g_float", routinesTable "g_float" false)], noEffects) := by
  constructor
  · exact (c7_host_only_cache_amended [] "g" "float" 0 "GPU_1D_device"
      envNoCuda [("g_float", routinesTable "g_float" false)] rfl).2.1
      (by rfl) (by decide)
  · exact ((c7_host_only_cache_amended [] "g" "float" 0 "CPU"
      envNoCuda [("g_float", routinesTable "g_float" false)] rfl).2.2
      (by rfl)).1

/-! ### Claim C4 — mixed memory spaces -/

/-- C4: when the shape checks pass but the participating buffers (result
plus retained variables) mix host and device residency, the call returns
the mixed-memory ConfigurationError with the cache untouched and no load,
no compilation and no invocation; and whenever a memory space is
detected successfully (the only way to reach backend resolution), the
buffers are all device-resident or all host-resident. -/
theorem c4_mixed_memory_config_error (formula : String) (signature : List Sig)
    (result : Buffer) (args : List Buffer) (backend : String)
    (aliases : List String) (sumIndex : Nat) (cudaType : String)
    (env : Env) (cache : Cache) :
    (∀ (nxO nyO : Option Nat) (vs : List Buffer) (nx ny : Nat) (sig0 : Sig),
      processArgs (args.zip signature.tail) (none, none, [])
          = .ok (nxO, nyO, vs) →
      checkNonEmpty nxO nyO = .ok (nx, ny) →
      signature.head? = some sig0 →
      checkResult sig0 result sumIndex nx ny = .ok () →
      ((result :: vs).map Buffer.isCuda).any id = true →
      ((result :: vs).map Buffer.isCuda).all id = false →
      cudaConvGeneric formula signature result args backend aliases sumIndex
          cudaType env cache
        = (.error .mixedMemory, cache, noEffects)) ∧
    (∀ (r : Buffer) (vs : List Buffer) (m : String),
      detectMemType r vs = .ok m →
      (∀ b ∈ r :: vs, b.isCuda = true) ∨ (∀ b ∈ r :: vs, b.isCuda = false)) := by
  constructor
  · intro nxO nyO vs nx ny sig0 h1 h2 h3 h4 hany hall
    have hd : detectMemType result vs = .error .mixedMemory := by
      simp only [detectMemType]
      have hna : ¬ (((result :: vs).map Buffer.isCuda).all id = true) := by
        rw [hall]; exact Bool.false_ne_true
      rw [if_neg hna, if_pos hany]
    simp only [cudaConvGeneric, h1, h2, h3, h4, hd]
  · intro r vs m hm
    simp only [detectMemType] at hm
    split_ifs at hm with h1 h2
    · left
      intro b hb
      have := List.all_eq_true.mp h1 b.isCuda (List.mem_map_of_mem _ hb)
      simpa using this
    · right
      intro b hb
      by_contra hc
      have hb2 : b.isCuda = true := by
        cases hcu : b.isCuda
        · exact absurd hcu hc
        · rfl
      exact h2 (List.any_eq_true.mpr
        ⟨b.isCuda, List.mem_map_of_mem _ hb, by simp [hb2]⟩)

theorem c4_mixed_memory_config_error_witness :
    cudaConvGeneric "f" [⟨2,0⟩, ⟨3,0⟩, ⟨3,1⟩] ⟨[5,2], false⟩
        [⟨[5,3], false⟩, ⟨[4,3], true⟩] "auto" [] 0 "float" envAll []
      = (.error .mixedMemory, [], noEffects) :=
  (c4_mixed_memory_config_error "f" [⟨2,0⟩, ⟨3,0⟩, ⟨3,1⟩] ⟨[5,2], false⟩
    [⟨[5,3], false⟩, ⟨[4,3], true⟩] "auto" [] 0 "float" envAll []).1
    (some 5) (some 4) [⟨[5,3], false⟩, ⟨[4,3], true⟩] 5 4 ⟨2,0⟩
    (by rfl) (by rfl) (by rfl) (by rfl) (by rfl) (by rfl)

/-! ### Claim C5 — empty point clouds -/

/-- C5: when the inferred `nx` is not strictly positive (no category-0
buffer at all, in which case it is still the initial `-1`, or a zero-row
first category-0 buffer), the call returns the `emptyX` EmptyInputError
with the cache untouched and no load, no compilation and no routine
invocation; symmetrically for `ny` and `emptyY`. -/
theorem c5_empty_input_error (formula : String) (signature : List Sig)
    (result : Buffer) (args : List Buffer) (backend : String)
    (aliases : List String) (sumIndex : Nat) (cudaType : String)
    (env : Env) (cache : Cache) (nxO nyO : Option Nat) (vs : List Buffer)
    (h1 : processArgs (args.zip signature.tail) (none, none, [])
        = .ok (nxO, nyO, vs)) :
    (¬ 0 < natOf nxO →
      cudaConvGeneric formula signature result args backend aliases sumIndex
          cudaType env cache
        = (.error .emptyX, cache, noEffects)) ∧
    (0 < natOf nxO → ¬ 0 < natOf nyO →
      cudaConvGeneric formula signature result args backend aliases sumIndex
          cudaType env cache
        = (.error .emptyY, cache, noEffects)) := by
  constructor
  · intro hx
    have h2 : checkNonEmpty nxO nyO = .error .emptyX := by
      simp only [checkNonEmpty]
      rw [if_pos hx]
    simp only [cudaConvGeneric, h1, h2]
  · intro hx hy
    have h2 : checkNonEmpty nxO nyO = .error .emptyY := by
      simp only [checkNonEmpty]
      rw [if_neg (not_not_intro hx), if_pos hy]
    simp only [cudaConvGeneric, h1, h2]

theorem c5_empty_input_error_witness :
    cudaConvGeneric "f" [⟨2,0⟩, ⟨3,0⟩] ⟨[0,2], false⟩ [⟨[0,3], false⟩]
        "auto" [] 0 "float" envAll []
      = (.error .emptyX, [], noEffects) :=
  (c5_empty_input_error "f" [⟨2,0⟩, ⟨3,0⟩] ⟨[0,2], false⟩ [⟨[0,3], false⟩]
    "auto" [] 0 "float" envAll [] (some 0) none [⟨[0,3], false⟩]
    (by rfl)).1 (by decide)

/-! ### Claim C6 — nx inference and shape errors -/

/-- C6: when the signature-checking loop succeeds, the inferred `nx`
equals the row count of every category-0 entry, and the value is invariant
under any reordering of the (buffer, signature-slot) pairs; a category-0
row-count mismatch and a category-0 dimension mismatch fail with the two
distinct shape errors, which carry distinct messages naming the violated
constraint. -/
theorem c6_nx_consistency (pairs pairs2 : List (Buffer × Sig)) :
    (∀ (r : Nat) (b : Option Nat) (c : List Buffer),
      processArgs pairs (none, none, []) = .ok (some r, b, c) →
      ∀ p ∈ pairs, p.2.cat = 0 → p.1.rows = r) ∧
    (∀ (r1 r2 : Nat) (b1 b2 : Option Nat) (c1 c2 : List Buffer),
      pairs.Perm pairs2 →
      processArgs pairs (none, none, []) = .ok (some r1, b1, c1) →
      processArgs pairs2 (none, none, []) = .ok (some r2, b2, c2) →
      r1 = r2) ∧
    (∀ (nxO nyO : Option Nat) (vars : List Buffer) (arg : Buffer) (sig : Sig),
      sig.cat = 0 → arg.ndims = 2 →
      (nxO.getD arg.rows ≠ arg.rows →
        processArg (nxO, nyO, vars) (arg, sig) = .error .cat0RowMismatch) ∧
      (nxO.getD arg.rows = arg.rows → sig.dim ≠ arg.cols →
        processArg (nxO, nyO, vars) (arg, sig) = .error .cat0DimMismatch)) ∧
    errMsg .cat0RowMismatch ≠ errMsg .cat0DimMismatch := by
  refine ⟨?_, ?_, ?_, by decide⟩
  · intro r b c h
    exact processArgs_cat0_rows pairs (none, none, []) r b c h
  · intro r1 r2 b1 b2 c1 c2 hperm h1 h2
    rcases processArgs_cat0_exists pairs (none, none, []) r1 b1 c1 h1 with
      hl | ⟨p, hp, hcat, hrows⟩
    · exact absurd hl (by simp)
    · have hp2 : p ∈ pairs2 := hperm.mem_iff.mp hp
      have := processArgs_cat0_rows pairs2 (none, none, []) r2 b2 c2 h2 p hp2 hcat
      rw [← hrows, this]
  · intro nxO nyO vars arg sig hcat hnd
    have hnd2 : ¬ (arg.ndims ≠ 2) := not_not_intro hnd
    constructor
    · intro hrow
      simp only [processArg]
      rw [if_pos hcat, if_neg hnd2, if_pos hrow]
    · intro hrow hdim
      simp only [processArg]
      rw [if_pos hcat, if_neg hnd2, if_neg (not_not_intro hrow), if_pos hdim]

theorem c6_nx_consistency_witness :
    (⟨[5,3], false⟩ : Buffer).rows = 5 ∧
    processArg (some 4, none, []) (⟨[5,3], false⟩, ⟨3,0⟩)
      = .error .cat0RowMismatch ∧
    processArg (some 5, none, []) (⟨[5,3], false⟩, ⟨7,0⟩)
      = .error .cat0DimMismatch := by
  refine ⟨?_, ?_, ?_⟩
  · exact (c6_nx_consistency [(⟨[5,3], false⟩, ⟨3,0⟩)] []).1 5 none
      [⟨[5,3], false⟩] (by rfl) (⟨[5,3], false⟩, ⟨3,0⟩) (by simp) rfl
  · exact ((c6_nx_consistency [] []).2.2.1 (some 4) none [] ⟨[5,3], false⟩
      ⟨3,0⟩ rfl rfl).1 (by decide)
  · exact ((c6_nx_consistency [] []).2.2.1 (some 5) none [] ⟨[5,3], false⟩
      ⟨7,0⟩ rfl rfl).2 (by decide) (by decide)

/-! ### Lemmas on the backward loop -/

/-- When none of the consulted `needs_input_grad` entries is true, the
backward loop completes, appending one `None` marker per slot and
performing no reduction. -/
lemma backwardGo_allFalse (backend : String) (aliases : List String)
    (formula : String) (signature : List Sig) (needs : List Bool)
    (argsG : List Buffer) (nvars : Nat) :
    ∀ (l : List Sig) (aI vI : Nat),
      (∀ k, k < l.length → needs.getD (aI + k) false = false) →
      backwardGo backend aliases formula signature needs argsG nvars l aI vI
        = .ok (List.replicate l.length none, 0) := by
  intro l
  induction l with
  | nil => intro aI vI h; rfl
  | cons sig rest ih =>
    intro aI vI h
    have h0 : ¬ (needs.getD aI false = true) := by
      have h1 := h 0 (by simp)
      rw [Nat.add_zero] at h1
      rw [h1]
      exact Bool.false_ne_true
    have hcond : ∀ k, k < rest.length → needs.getD (aI + 1 + k) false = false := by
      intro k hk
      have h2 := h (k + 1) (by simpa using Nat.succ_lt_succ hk)
      rw [show aI + 1 + k = aI + (k + 1) from by omega]
      exact h2
    have hrec := ih (aI + 1) (vI + 1) hcond
    simp only [backwardGo]
    rw [if_neg h0, hrec]
    simp [List.replicate_succ]

/-- As soon as any consulted `needs_input_grad` entry is true, the
backward loop raises `TypeError` at a `genconv` call and returns no slot
list at all. -/
lemma backwardGo_typeError (backend : String) (aliases : List String)
    (formula : String) (signature : List Sig) (needs : List Bool)
    (argsG : List Buffer) (nvars : Nat) :
    ∀ (l : List Sig) (aI vI k : Nat) (sig : Sig),
      l[k]? = some sig → needs.getD (aI + k) false = true →
      backwardGo backend aliases formula signature needs argsG nvars l aI vI
        = .error .typeError := by
  intro l
  induction l with
  | nil => intro aI vI k sig hk htrue; simp at hk
  | cons sig0 rest ih =>
    intro aI vI k sig hk htrue
    by_cases h0 : needs.getD aI false = true
    · simp only [backwardGo, genconvApply]
      rw [if_pos h0]
    · simp only [backwardGo]
      rw [if_neg h0]
      cases k with
      | zero =>
        rw [Nat.add_zero] at htrue
        exact absurd htrue h0
      | succ k2 =>
        have hk2 : rest[k2]? = some sig := by simpa using hk
        have ht2 : needs.getD (aI + 1 + k2) false = true := by
          rw [show aI + 1 + k2 = aI + (k2 + 1) from by omega]
          exact htrue
        rw [ih (aI + 1) (vI + 1) k2 sig hk2 ht2]

/-! ### Claim C3 — parameter gradients -/

/-- A concrete context: output of dimension 3, category 1; one parameter
input of dimension 2. -/
def ctxParam : Ctx := ⟨[⟨[2], false⟩], "auto", [], "f", [⟨3,1⟩, ⟨2,2⟩], 1⟩

/-- A concrete incoming output-gradient buffer matching `ctxParam`'s
output slot (7 rows of dimension 3). -/
def gOutParam : Buffer := ⟨[7, 3], false⟩

/-- C3 counterexample: the claim says that for a requested parameter
input a gradient is computed by a reduction, contracted, and returned
with shape (1, parameter_dim); on this concrete request the backward
pass instead raises `TypeError` at the `genconv` call — its positional
arguments cannot bind `forward`'s keyword-only `sum_index` and `backend`
— so no reduction completes, the all-ones contraction never runs, and no
buffer is returned at all (the call yields an error, not a tuple). -/
theorem c3_param_grad_crash_counterexample :
    pytorchGenredBackward ctxParam gOutParam
        [false, false, false, false, false, true]
      = .error .typeError :=
  rfl

/-- C3 (amended): when the backward pass differentiates with respect to a
category-2 (parameter) input, it prepares the gradient reduction with the
intermediate sum-index 1 and a `signature_g` whose output slot `[dim, 1]`
is indexed like a category-1 array — the single all-ones contraction and
`view(-1)` of lines 94-95 being the intended follow-up — but the
recursive `genconv` call raises `TypeError`, because its positional
arguments cannot bind `forward`'s keyword-only `sum_index` and `backend`,
so no reduction is executed and no buffer is returned for that input. -/
theorem c3_param_gradient_crash_amended (ctx : Ctx) (G : Buffer)
    (needs : List Bool) (k : Nat) (sig : Sig)
    (hk : ctx.signature.tail[k]? = some sig) (hcat : sig.cat = 2)
    (hneeds : needs.getD (5 + k) false = true) :
    (gradCallFor ctx.formula ctx.signature sig k
        ctx.signature.tail.length).sumIndexG = 1 ∧
    (gradCallFor ctx.formula ctx.signature sig k
        ctx.signature.tail.length).signatureG
      = ⟨sig.dim, 1⟩ :: (ctx.signature.tail ++ ctx.signature.take 1) ∧
    pytorchGenredBackward ctx G needs = .error .typeError := by
  refine ⟨?_, ?_, ?_⟩
  · simp [gradCallFor, hcat]
  · simp [gradCallFor, hcat]
  · simp only [pytorchGenredBackward]
    rw [backwardGo_typeError ctx.backend ctx.aliases ctx.formula
      ctx.signature needs (ctx.savedArgs ++ [G]) ctx.signature.tail.length
      ctx.signature.tail 5 0 k sig hk hneeds]

theorem c3_param_gradient_crash_amended_witness :
    (gradCallFor "f" [⟨3,1⟩, ⟨2,2⟩] ⟨2,2⟩ 0 1).sumIndexG = 1 ∧
    (gradCallFor "f" [⟨3,1⟩, ⟨2,2⟩] ⟨2,2⟩ 0 1).signatureG
      = [⟨2,1⟩, ⟨2,2⟩, ⟨3,1⟩] ∧
    pytorchGenredBackward ctxParam gOutParam
        [false, false, false, false, false, true] = .error .typeError := by
  have h := c3_param_gradient_crash_amended ctxParam gOutParam
    [false, false, false, false, false, true] 0 ⟨2,2⟩
    (by rfl) (by rfl) (by rfl)
  exact ⟨h.1, by simpa using h.2.1, h.2.2⟩

/-! ### Claim C8 — the forward pass -/

/-- C8: on host-resident inputs the forward pass records the formula,
aliases, signature, sum_index, backend and the input buffers themselves in
the retained context, executes exactly one reduction and returns the
output buffer; on device-resident inputs the branch reads the unassigned
`vars_p` (and returns the unassigned `result`), raising `NameError`
instead of executing the reduction — the device half of the claim fails
on the code. -/
theorem c8_forward_device_branch_nameerror :
    pytorchGenredForward "f" [] [⟨3,0⟩, ⟨3,0⟩] [⟨[5,3], true⟩] 0 "auto" 5 4
      = .error .nameError ∧
    pytorchGenredForward "f" [] [⟨3,0⟩, ⟨3,0⟩] [⟨[5,3], false⟩] 0 "auto" 5 4
      = .ok ⟨⟨[⟨[5,3], false⟩], "auto", [], "f", [⟨3,0⟩, ⟨3,0⟩], 0⟩,
            [5, 3], 1⟩ :=
  ⟨rfl, rfl⟩

/-! ### Claim C9 — the backward tuple -/

/-- A concrete context with two array inputs: output dim 3 category 0,
an X (category 0) and a Y (category 1) input, plus a matching
output-gradient buffer. -/
def ctxVec : Ctx :=
  ⟨[⟨[5,3], false⟩, ⟨[4,3], false⟩], "auto", [], "g",
   [⟨3,0⟩, ⟨3,0⟩, ⟨3,1⟩], 0⟩

def gOutVec : Buffer := ⟨[5, 3], false⟩

/-- C9: when no gradient is requested, backward does return exactly the
claimed tuple — five `None` markers for the non-differentiable forward
parameters followed by one `None` slot per input — with zero reductions
invoked; but on a request for any input's gradient the `genconv` call
raises `TypeError` (its positional arguments cannot bind `forward`'s
keyword-only `sum_index` and `backend`) and no tuple is returned.  The
tuple construction is the code's own evident intent — the comments at
lines 69 and 108 and the `(None,)*5` return still follow the older
forward convention the backward was written against — so the crash is a
calling-convention slip, not a design. -/
theorem c9_backward_typeerror_code_bug :
    pytorchGenredBackward ctxVec gOutVec
        [false, false, false, false, false, true, false]
      = .error .typeError ∧
    pytorchGenredBackward ctxVec gOutVec
        [false, false, false, false, false, false, false]
      = .ok ([none, none, none, none, none, none, none], 0) :=
  ⟨rfl, rfl⟩
